import Mathlib

/-!
Shallow embedding of the leverage-feasibility-frontier core
(src/model.py and src/simulate.py), modelled over exact rationals.
Python floats are modelled as `Rat`; `ValueError` sites are modelled by
an explicit error type whose constructors follow the error taxonomy
used by the specification (ConfigurationError, InvalidRangeError,
InvalidPresetError, InvalidDistributionError), each corresponding to
one raise site of the source.
-/

/-- Error outcomes of the core. Each constructor corresponds to a family of
raise sites in src/model.py / src/simulate.py. -/
inductive ModelError where
  | configurationError
  | invalidRangeError
  | invalidPresetError
  | invalidDistributionError
deriving DecidableEq, Repr

/-- Embedding of the frozen dataclass `CashflowModel` in src/model.py. -/
structure CashflowModel where
  operating_cost_ratio : Rat
  interest_only : Bool
deriving DecidableEq, Repr

/-- `CashflowModel.noi`: net operating income `(1-c) * R * occ`. -/
def CashflowModel.noi (m : CashflowModel) (gross_rent occupancy : Rat) : Rat :=
  (1 - m.operating_cost_ratio) * gross_rent * occupancy

/-- `CashflowModel.interest`: interest-only debt service `r * D`. -/
def CashflowModel.interest (m : CashflowModel) (rate debt : Rat) : Rat :=
  rate * debt

/-- `CashflowModel.net_cashflow`: `noi - interest`. -/
def CashflowModel.net_cashflow (m : CashflowModel)
    (gross_rent occupancy rate debt : Rat) : Rat :=
  m.noi gross_rent occupancy - m.interest rate debt

/-- `CashflowModel.dscr`: raises when `interest <= 0`, returns `0` when
`noi <= 0`, otherwise `noi / interest` (src/model.py lines 25-33). -/
def CashflowModel.dscr (m : CashflowModel)
    (gross_rent occupancy rate debt : Rat) : Except ModelError Rat :=
  let n := m.noi gross_rent occupancy
  let i := m.interest rate debt
  if i ≤ 0 then .error .configurationError
  else if n ≤ 0 then .ok 0
  else .ok (n / i)

/-- Round-half-to-even to an integer, the rounding mode of `np.round`. -/
def roundHalfEven (q : Rat) : Int :=
  let f : Int := ⌊q⌋
  let r : Rat := q - f
  if r < 1/2 then f
  else if 1/2 < r then f + 1
  else if f % 2 = 0 then f else f + 1

/-- Rounding to 10 decimal places, `np.round(grid, 10)` in src/model.py. -/
def round10 (q : Rat) : Rat :=
  (roundHalfEven (q * 10000000000) : Rat) / 10000000000

/-- `ltv_grid` (src/model.py lines 36-41): inclusive-stop arithmetic grid with
a `1e-12` tolerance on the point count; `np.arange n` of a non-positive `n`
is the empty array, hence `Int.toNat`. -/
def ltv_grid (start stop step : Rat) : Except ModelError (List Rat) :=
  if step ≤ 0 then .error .invalidRangeError
  else
    let n : Int := ⌊(stop - start) / step + 1/1000000000000⌋ + 1
    .ok ((List.range n.toNat).map (fun k : Nat => round10 (start + step * (k : Rat))))

/-- A calibration preset as consumed by `implied_gross_yield`: a key that is
absent, or present with value `None`, is modelled as `none`. -/
structure Preset where
  gross_yield : Option Rat
  purchase_price_gbp : Option Rat
  annual_rent_gbp : Option Rat
deriving DecidableEq, Repr

/-- `implied_gross_yield` (src/model.py lines 44-63): an explicit
`gross_yield` takes priority; otherwise a price/rent pair; otherwise error. -/
def implied_gross_yield (preset : Preset) : Except ModelError Rat :=
  match preset.gross_yield with
  | some gy => if gy ≤ 0 then .error .invalidPresetError else .ok gy
  | none =>
    match preset.purchase_price_gbp, preset.annual_rent_gbp with
    | some price, some rent =>
        if price ≤ 0 ∨ rent ≤ 0 then .error .invalidPresetError
        else .ok (rent / price)
    | _, _ => .error .invalidPresetError

/-- `normalised_rent_from_yield`: rent = yield × price. -/
def normalised_rent_from_yield (gross_yield price : Rat) : Rat :=
  gross_yield * price

/-- `normalised_debt_from_ltv`: debt = ltv × price, requiring `0 < ltv < 1`. -/
def normalised_debt_from_ltv (ltv price : Rat) : Except ModelError Rat :=
  if ltv ≤ 0 ∨ 1 ≤ ltv then .error .invalidRangeError
  else .ok (ltv * price)

/-- `analytical_max_rate_for_dscr` (src/model.py lines 78-100): closed-form
maximum rate `(1-c)*R*occ / (m*D)` sustaining DSCR ≥ m. -/
def analytical_max_rate_for_dscr
    (operating_cost_ratio gross_yield ltv occupancy min_dscr : Rat) :
    Except ModelError Rat :=
  if ltv ≤ 0 then .error .invalidRangeError
  else if min_dscr ≤ 0 then .error .invalidRangeError
  else .ok ((1 - operating_cost_ratio) * gross_yield * occupancy / (min_dscr * ltv))

/-- `analytical_break_even_shock_bp` (src/model.py lines 103-111). -/
def analytical_break_even_shock_bp (base_rate max_rate : Rat) : Rat :=
  10000 * (max_rate - base_rate)

/-- `normalise_weights` (src/model.py lines 114-124): values/weights are 1-D
arrays, modelled as lists; the `ndim` checks are structural here, so only the
length, sign and total-mass checks remain. -/
def normalise_weights (values weights : List Rat) :
    Except ModelError (List Rat × List Rat) :=
  if values.length ≠ weights.length then .error .invalidDistributionError
  else if weights.any (fun w => w < 0) then .error .invalidDistributionError
  else
    let s := weights.sum
    if s ≤ 0 then .error .invalidDistributionError
    else .ok (values, weights.map (fun w => w / s))

/-- Scenario rate construction `base_rate + shock_bp / 10000` used by the
distribution evaluator and the sweep (src/simulate.py). -/
def scenario_rate (base_rate shock_bp : Rat) : Rat :=
  base_rate + shock_bp / 10000

/-- Failure classification of one (occupancy, rate) scenario point in
`failure_probability_over_distribution`: failed iff `dscr < min_dscr` or
`net_cashflow < min_cashflow`; the DSCR evaluation may raise. -/
def scenario_failed (model : CashflowModel)
    (gross_rent occ rate debt min_dscr min_cashflow : Rat) :
    Except ModelError Bool := do
  let cf := model.net_cashflow gross_rent occ rate debt
  let d ← model.dscr gross_rent occ rate debt
  pure (decide (d < min_dscr) || decide (cf < min_cashflow))

/-- Inner loop of `failure_probability_over_distribution`: for a fixed
occupancy value `occ` with renormalised weight `occ_w`, walk the shock
support (values paired with their renormalised weights, the representation
of indexing `joint_w[i, j] = occ_weights[i] * shock_weights[j]`),
accumulating the joint mass of failed pairs into `acc`. -/
def accumulate_shocks (model : CashflowModel)
    (gross_rent debt base_rate min_dscr min_cashflow occ occ_w : Rat)
    (shocks : List (Rat × Rat)) (acc : Rat) : Except ModelError Rat :=
  match shocks with
  | [] => .ok acc
  | (s, w) :: rest => do
      let failed ← scenario_failed model gross_rent occ (scenario_rate base_rate s)
        debt min_dscr min_cashflow
      accumulate_shocks model gross_rent debt base_rate min_dscr min_cashflow
        occ occ_w rest (if failed then acc + occ_w * w else acc)

/-- Outer loop of `failure_probability_over_distribution` over the occupancy
support. -/
def accumulate_occs (model : CashflowModel)
    (gross_rent debt base_rate min_dscr min_cashflow : Rat)
    (occs shocks : List (Rat × Rat)) (acc : Rat) : Except ModelError Rat :=
  match occs with
  | [] => .ok acc
  | (o, ow) :: rest => do
      let acc2 ← accumulate_shocks model gross_rent debt base_rate min_dscr
        min_cashflow o ow shocks acc
      accumulate_occs model gross_rent debt base_rate min_dscr min_cashflow
        rest shocks acc2

/-- `failure_probability_over_distribution` (src/simulate.py lines 47-77):
defensively renormalise both marginals, then accumulate the joint mass of
failed (occupancy, shock) pairs over the full Cartesian product. -/
def failure_probability_over_distribution (model : CashflowModel)
    (gross_rent debt base_rate : Rat)
    (shock_bp_values shock_bp_weights occ_values occ_weights : List Rat)
    (min_dscr min_cashflow : Rat) : Except ModelError Rat := do
  let sd ← normalise_weights shock_bp_values shock_bp_weights
  let od ← normalise_weights occ_values occ_weights
  accumulate_occs model gross_rent debt base_rate min_dscr min_cashflow
    (od.1.zip od.2) (sd.1.zip sd.2) 0

/-- The DSCR value with the zero floor, defined (per the spec's §4.1 formula)
for scenario points whose interest is positive; used to state what the
distribution evaluator computes. -/
def dscr_floored (model : CashflowModel)
    (gross_rent occupancy rate debt : Rat) : Rat :=
  if model.noi gross_rent occupancy ≤ 0 then 0
  else model.noi gross_rent occupancy / model.interest rate debt

/-- Whether one (occupancy, shock) pair fails the DSCR/cashflow thresholds,
stated with the floored DSCR value. -/
def pair_failed (model : CashflowModel)
    (gross_rent debt base_rate min_dscr min_cashflow occ shock_bp : Rat) : Bool :=
  decide (dscr_floored model gross_rent occ (scenario_rate base_rate shock_bp) debt
            < min_dscr) ||
  decide (model.net_cashflow gross_rent occ (scenario_rate base_rate shock_bp) debt
            < min_cashflow)

/-- Modelled from the spec (§4.5): the failure probability as the sum, over
every (occupancy, shock) pair of the Cartesian product of the two supports
(each value paired with its renormalised marginal weight), of the product of
the marginal weights of the failed pairs. -/
def spec_failure_mass (model : CashflowModel)
    (gross_rent debt base_rate min_dscr min_cashflow : Rat)
    (occs shocks : List (Rat × Rat)) : Rat :=
  (occs.map (fun o =>
    (shocks.map (fun s =>
      if pair_failed model gross_rent debt base_rate min_dscr min_cashflow o.1 s.1
      then o.2 * s.2 else 0)).sum)).sum

/-- The renormalised weight list `w_i / Σw` produced by `normalise_weights`. -/
def renormalised (weights : List Rat) : List Rat :=
  weights.map (fun w => w / weights.sum)

/-- The configuration consumed by the sweep orchestrator `main`
(src/simulate.py lines 118-187) after YAML loading and preset resolution,
which are out-of-core I/O glue. -/
structure SweepConfig where
  operating_cost_ratio : Rat
  base_rate : Rat
  min_dscr : Rat
  min_cashflow : Rat
  max_failure_probability : Rat
  stress_occ : Rat
  stress_shock_bp : Rat
  gross_yield : Rat
  shock_bp_values : List Rat
  shock_bp_weights : List Rat
  occ_values : List Rat
  occ_weights : List Rat
deriving DecidableEq, Repr

/-- One result row of the sweep (the numeric and boolean fields of the row
dict assembled in `main`; the preset name, a pass-through string, is not
modelled). `worst_on_support` holds the pair (worst cashflow, worst DSCR);
`none` models the `np.inf` initial value left by an empty support. -/
structure ResultRow where
  gross_yield : Rat
  base_rate : Rat
  ltv : Rat
  theta_rent_to_debt : Rat
  stress_occ : Rat
  stress_shock_bp : Rat
  stress_rate : Rat
  stress_cashflow : Rat
  stress_dscr : Rat
  worst_on_support : Option (Rat × Rat)
  failure_probability : Rat
  max_failure_probability : Rat
  max_shock_bp : Rat
  passes_stress : Bool
  passes_probability : Bool
  admissible : Bool
deriving DecidableEq, Repr

/-- The unweighted worst-case (minimum) cashflow and DSCR over the support,
the `worst_cf` / `worst_dscr` loop of `main`; starts from `np.inf`, modelled
as `none`. -/
def worst_on_support (model : CashflowModel)
    (gross_rent debt base_rate : Rat) (occs shocks : List Rat)
    (acc : Option (Rat × Rat)) : Except ModelError (Option (Rat × Rat)) :=
  match occs with
  | [] => .ok acc
  | o :: rest => do
      let acc2 ← shocks.foldlM (fun a s => do
        let rate := scenario_rate base_rate s
        let cf := model.net_cashflow gross_rent o rate debt
        let ds ← model.dscr gross_rent o rate debt
        pure (match a with
          | none => some (cf, ds)
          | some (wc, wd) => some (min wc cf, min wd ds))) acc
      worst_on_support model gross_rent debt base_rate rest shocks acc2

/-- The body of the per-LTV loop of `main` (src/simulate.py lines 118-187):
normalise rent and debt at unit price, run the deterministic stress check,
the probabilistic check, the worst-case scan and the analytic solver, and
assemble the row. -/
def build_row (cfg : SweepConfig) (ltv : Rat) : Except ModelError ResultRow := do
  let model : CashflowModel :=
    { operating_cost_ratio := cfg.operating_cost_ratio, interest_only := true }
  let R := normalised_rent_from_yield cfg.gross_yield 1
  let D ← normalised_debt_from_ltv ltv 1
  let stress_rate := scenario_rate cfg.base_rate cfg.stress_shock_bp
  let stress_cf := model.net_cashflow R cfg.stress_occ stress_rate D
  let stress_dscr ← model.dscr R cfg.stress_occ stress_rate D
  let passes_stress :=
    decide (cfg.min_cashflow ≤ stress_cf) && decide (cfg.min_dscr ≤ stress_dscr)
  let p_fail ← failure_probability_over_distribution model R D cfg.base_rate
    cfg.shock_bp_values cfg.shock_bp_weights cfg.occ_values cfg.occ_weights
    cfg.min_dscr cfg.min_cashflow
  let passes_probability := decide (p_fail ≤ cfg.max_failure_probability)
  let worst ← worst_on_support model R D cfg.base_rate cfg.occ_values
    cfg.shock_bp_values none
  let max_rate ← analytical_max_rate_for_dscr cfg.operating_cost_ratio
    cfg.gross_yield ltv cfg.stress_occ cfg.min_dscr
  let max_shock_bp := analytical_break_even_shock_bp cfg.base_rate max_rate
  let admissible := passes_stress && passes_probability
  pure {
    gross_yield := cfg.gross_yield
    base_rate := cfg.base_rate
    ltv := ltv
    theta_rent_to_debt := cfg.gross_yield / ltv
    stress_occ := cfg.stress_occ
    stress_shock_bp := cfg.stress_shock_bp
    stress_rate := stress_rate
    stress_cashflow := stress_cf
    stress_dscr := stress_dscr
    worst_on_support := worst
    failure_probability := p_fail
    max_failure_probability := cfg.max_failure_probability
    max_shock_bp := max_shock_bp
    passes_stress := passes_stress
    passes_probability := passes_probability
    admissible := admissible }

/-- The per-LTV loop of `main`: one row per grid value, in grid order; any
error aborts the whole sweep. -/
def build_rows (cfg : SweepConfig) (ltvs : List Rat) :
    Except ModelError (List ResultRow) :=
  match ltvs with
  | [] => .ok []
  | l :: rest => do
      let row ← build_row cfg l
      let rows ← build_rows cfg rest
      pure (row :: rows)

/-- The sweep orchestrator: build the LTV grid, then one row per LTV. -/
def run_sweep (cfg : SweepConfig) (start stop step : Rat) :
    Except ModelError (List ResultRow) := do
  let ltvs ← ltv_grid start stop step
  build_rows cfg ltvs

section Helpers

/-- With positive interest, `dscr` succeeds and returns the floored ratio. -/
lemma dscr_eq_floored (m : CashflowModel) (gross_rent occ rate debt : Rat)
    (h : 0 < rate * debt) :
    m.dscr gross_rent occ rate debt = .ok (dscr_floored m gross_rent occ rate debt) := by
  unfold CashflowModel.dscr dscr_floored CashflowModel.interest
  rw [if_neg (not_le.mpr h), apply_ite Except.ok]

/-- With positive interest, the failure classification of a scenario point
succeeds and agrees with the pure predicate `pair_failed`. -/
lemma scenario_failed_eq (m : CashflowModel)
    (gross_rent occ rate debt min_dscr min_cashflow : Rat) (h : 0 < rate * debt) :
    scenario_failed m gross_rent occ rate debt min_dscr min_cashflow =
      .ok (decide (dscr_floored m gross_rent occ rate debt < min_dscr) ||
           decide (m.net_cashflow gross_rent occ rate debt < min_cashflow)) := by
  unfold scenario_failed
  rw [dscr_eq_floored m gross_rent occ rate debt h]
  rfl

/-- The inner shock loop accumulates exactly the joint mass of failed pairs
for the fixed occupancy value. -/
lemma accumulate_shocks_eq (m : CashflowModel)
    (gross_rent debt base_rate min_dscr min_cashflow o ow : Rat)
    (shocks : List (Rat × Rat)) (acc : Rat)
    (h : ∀ p ∈ shocks, 0 < scenario_rate base_rate p.1 * debt) :
    accumulate_shocks m gross_rent debt base_rate min_dscr min_cashflow o ow
        shocks acc =
      .ok (acc + (shocks.map (fun s =>
        if pair_failed m gross_rent debt base_rate min_dscr min_cashflow o s.1
        then ow * s.2 else 0)).sum) := by
  induction shocks generalizing acc with
  | nil => simp [accumulate_shocks]
  | cons hd tl ih =>
      obtain ⟨s, w⟩ := hd
      have hpos : 0 < scenario_rate base_rate s * debt := h (s, w) (by simp)
      rw [accumulate_shocks,
        scenario_failed_eq m gross_rent o (scenario_rate base_rate s) debt
          min_dscr min_cashflow hpos]
      simp only [bind, Except.bind]
      rw [ih _ (fun p hp => h p (List.mem_cons_of_mem _ hp))]
      simp only [List.map_cons, List.sum_cons, pair_failed]
      congr 1
      split_ifs <;> ring

/-- The outer occupancy loop accumulates exactly the spec's joint failure
mass over the Cartesian product. -/
lemma accumulate_occs_eq (m : CashflowModel)
    (gross_rent debt base_rate min_dscr min_cashflow : Rat)
    (occs shocks : List (Rat × Rat)) (acc : Rat)
    (h : ∀ p ∈ shocks, 0 < scenario_rate base_rate p.1 * debt) :
    accumulate_occs m gross_rent debt base_rate min_dscr min_cashflow
        occs shocks acc =
      .ok (acc + spec_failure_mass m gross_rent debt base_rate min_dscr
        min_cashflow occs shocks) := by
  induction occs generalizing acc with
  | nil => simp [accumulate_occs, spec_failure_mass]
  | cons hd tl ih =>
      obtain ⟨o, ow⟩ := hd
      rw [accumulate_occs,
        accumulate_shocks_eq m gross_rent debt base_rate min_dscr min_cashflow
          o ow shocks acc h]
      simp only [bind, Except.bind]
      rw [ih]
      simp only [spec_failure_mass, List.map_cons, List.sum_cons]
      rw [Except.ok.injEq]
      ring

/-- `normalise_weights` on a valid distribution returns the values unchanged
and the weights divided by their total. -/
lemma normalise_weights_eq (values weights : List Rat)
    (hlen : values.length = weights.length)
    (hnn : ∀ w ∈ weights, 0 ≤ w) (hsum : weights.sum ≠ 0) :
    normalise_weights values weights = .ok (values, renormalised weights) := by
  have hpos : 0 < weights.sum :=
    lt_of_le_of_ne (List.sum_nonneg hnn) (Ne.symm hsum)
  have hany : weights.any (fun w => decide (w < 0)) = false := by
    simp only [List.any_eq_false, decide_eq_true_eq]
    intro w hw
    exact not_lt.mpr (hnn w hw)
  unfold normalise_weights renormalised
  rw [if_neg (by simp [hlen]), if_neg (by simp [hany]), if_neg (not_le.mpr hpos)]

end Helpers

/-- C1: the analytical solver is an exact symbolic inverse of the model's
DSCR: with `c < 1`, `R > 0`, `occ > 0`, `D > 0`, `m > 0`, the rate it
returns makes the model's DSCR exactly `m`. -/
theorem c1_analytical_inverse (c R D occ m r : Rat)
    (hc : c < 1) (hR : 0 < R) (hocc : 0 < occ) (hD : 0 < D) (hm : 0 < m)
    (hr : analytical_max_rate_for_dscr c R D occ m = .ok r) :
    (CashflowModel.mk c true).dscr R occ r D = .ok m := by
  have h1c : 0 < 1 - c := by linarith
  have hnoi : 0 < (1 - c) * R * occ := by positivity
  unfold analytical_max_rate_for_dscr at hr
  rw [if_neg (not_le.mpr hD), if_neg (not_le.mpr hm), Except.ok.injEq] at hr
  subst hr
  unfold CashflowModel.dscr CashflowModel.noi CashflowModel.interest
  have hint : 0 < (1 - c) * R * occ / (m * D) * D := by positivity
  rw [if_neg (by simpa using not_le.mpr hint), if_neg (by simpa using not_le.mpr hnoi),
    Except.ok.injEq]
  field_simp
  ring

/-- C2: `dscr` raises `ConfigurationError` exactly when
`interest = rate * debt ≤ 0`; otherwise it returns `0` when
`noi = (1-c) * gross_rent * occupancy ≤ 0` and `noi / interest` when
`noi > 0`. -/
theorem c2_dscr_branches (c gross_rent occupancy rate debt : Rat) :
    (CashflowModel.mk c true).dscr gross_rent occupancy rate debt =
      (if rate * debt ≤ 0 then .error .configurationError
       else if (1 - c) * gross_rent * occupancy ≤ 0 then .ok 0
       else .ok ((1 - c) * gross_rent * occupancy / (rate * debt))) := rfl

/-- C9: `analytical_break_even_shock_bp` is exactly
`10000 * (max_rate - base_rate)`, and it is negative (not clamped) whenever
`max_rate < base_rate`. -/
theorem c9_break_even_shock (base_rate max_rate : Rat) :
    analytical_break_even_shock_bp base_rate max_rate =
      10000 * (max_rate - base_rate) ∧
    (max_rate < base_rate →
      analytical_break_even_shock_bp base_rate max_rate < 0) := by
  constructor
  · rfl
  · intro h
    unfold analytical_break_even_shock_bp
    nlinarith

/-- Witness for C9 at `base_rate = 2`, `max_rate = 1`. -/
theorem c9_break_even_shock_witness :
    analytical_break_even_shock_bp 2 1 < 0 :=
  (c9_break_even_shock 2 1).2 (by norm_num)

/-- C10: with `step > 0` and a non-positive tolerant point count, `ltv_grid`
returns the empty sequence rather than raising. -/
theorem c10_empty_grid (start stop step : Rat) (hstep : 0 < step)
    (hn : ⌊(stop - start) / step + 1/1000000000000⌋ + 1 ≤ 0) :
    ltv_grid start stop step = .ok [] := by
  simp only [ltv_grid]
  rw [if_neg (not_le.mpr hstep), Int.toNat_of_nonpos hn]
  rfl

/-- Witness for C10 at `start = 10`, `stop = 0`, `step = 1`. -/
theorem c10_empty_grid_witness : ltv_grid 10 0 1 = .ok [] :=
  c10_empty_grid 10 0 1 (by norm_num) (by norm_num)

/-- Counterexample to C6 as stated: the preset `{gross_yield: -1,
purchase_price_gbp: 2, annual_rent_gbp: 1}` does not carry an explicit
positive gross yield but does carry a positive price and rent, yet the code
signals `InvalidPresetError` instead of returning `rent/price = 1/2`. -/
theorem c6_counterexample :
    ¬ (0 < (-1 : Rat)) ∧ (0 < (2 : Rat)) ∧ (0 < (1 : Rat)) ∧
    implied_gross_yield ⟨some (-1), some 2, some 1⟩ = .error .invalidPresetError ∧
    implied_gross_yield ⟨some (-1), some 2, some 1⟩ ≠ .ok (1 / 2) := by
  refine ⟨by norm_num, by norm_num, by norm_num, ?_, ?_⟩
  · simp [implied_gross_yield]
  · simp [implied_gross_yield]

/-- C6 amended: a present `gross_yield` is the only derivation path
attempted — positive is returned, non-positive errors (price/rent are never
consulted); with no `gross_yield`, a positive price/rent pair yields
`rent/price`, and anything else errors. -/
theorem c6_implied_gross_yield (p : Preset) :
    (∀ gy, p.gross_yield = some gy → 0 < gy →
      implied_gross_yield p = .ok gy) ∧
    (∀ gy, p.gross_yield = some gy → gy ≤ 0 →
      implied_gross_yield p = .error .invalidPresetError) ∧
    (∀ price rent, p.gross_yield = none → p.purchase_price_gbp = some price →
      p.annual_rent_gbp = some rent → 0 < price → 0 < rent →
      implied_gross_yield p = .ok (rent / price)) ∧
    (p.gross_yield = none →
      (p.purchase_price_gbp = none ∨ p.annual_rent_gbp = none) →
      implied_gross_yield p = .error .invalidPresetError) ∧
    (∀ price rent, p.gross_yield = none → p.purchase_price_gbp = some price →
      p.annual_rent_gbp = some rent → (price ≤ 0 ∨ rent ≤ 0) →
      implied_gross_yield p = .error .invalidPresetError) := by
  refine ⟨?_, ?_, ?_, ?_, ?_⟩
  · intro gy hgy hpos
    simp [implied_gross_yield, hgy, not_le.mpr hpos]
  · intro gy hgy hle
    simp [implied_gross_yield, hgy, hle]
  · intro price rent hgy hp hr hppos hrpos
    simp [implied_gross_yield, hgy, hp, hr, not_le.mpr hppos, not_le.mpr hrpos]
  · intro hgy hnone
    rcases hnone with hp | hr
    · cases hr : p.annual_rent_gbp <;> simp [implied_gross_yield, hgy, hp, hr]
    · cases hp : p.purchase_price_gbp <;> simp [implied_gross_yield, hgy, hp, hr]
  · intro price rent hgy hp hr hle
    simp [implied_gross_yield, hgy, hp, hr, hle]

/-- Witness for C6 at the spec's example preset (price 500000, rent 30000,
no explicit yield): the derived yield is `30000 / 500000`. -/
theorem c6_implied_gross_yield_witness :
    implied_gross_yield ⟨none, some 500000, some 30000⟩ = .ok (30000 / 500000) :=
  (c6_implied_gross_yield ⟨none, some 500000, some 30000⟩).2.2.1 500000 30000
    rfl rfl rfl (by norm_num) (by norm_num)

/-- C8: `normalise_weights` returns weights summing exactly to 1 on every
valid input (equal lengths, non-negative weights, non-zero total mass),
and signals `InvalidDistributionError` exactly when the lengths mismatch,
some weight is negative, or the weights sum to zero. -/
theorem c8_normalise_weights (values weights : List Rat) :
    (values.length = weights.length → (∀ w ∈ weights, 0 ≤ w) →
      weights.sum ≠ 0 →
      normalise_weights values weights = .ok (values, renormalised weights) ∧
      (renormalised weights).sum = 1) ∧
    (normalise_weights values weights = .error .invalidDistributionError ↔
      (values.length ≠ weights.length ∨ (∃ w ∈ weights, w < 0) ∨
        weights.sum = 0)) := by
  constructor
  · intro hlen hnn hsum
    refine ⟨normalise_weights_eq values weights hlen hnn hsum, ?_⟩
    unfold renormalised
    have hmap : ∀ (l : List Rat) (s : Rat),
        (l.map (fun w => w / s)).sum = l.sum / s := by
      intro l s
      induction l with
      | nil => simp
      | cons h t ih => simp [ih, add_div]
    rw [hmap]
    exact div_self hsum
  · constructor
    · intro h
      by_contra hcon
      push_neg at hcon
      obtain ⟨hlen, hnn, hsum⟩ := hcon
      rw [normalise_weights_eq values weights hlen hnn hsum] at h
      exact absurd h (by simp)
    · intro h
      unfold normalise_weights
      rcases h with hlen | hneg | hsum
      · rw [if_pos hlen]
      · rcases eq_or_ne values.length weights.length with heq | hne
        · rw [if_neg (by simp [heq])]
          obtain ⟨w, hw, hwneg⟩ := hneg
          rw [if_pos (by simpa using ⟨w, hw, hwneg⟩)]
        · rw [if_pos hne]
      · rcases eq_or_ne values.length weights.length with heq | hne
        · rcases Classical.em (∃ w ∈ weights, w < 0) with hneg | hnoneg
          · rw [if_neg (by simp [heq])]
            obtain ⟨w, hw, hwneg⟩ := hneg
            rw [if_pos (by simpa using ⟨w, hw, hwneg⟩)]
          · rw [if_neg (by simp [heq]), if_neg (by simpa using hnoneg),
              if_pos (le_of_eq hsum)]
        · rw [if_pos hne]

/-- Witness for C8 on values `[1, 2]`, weights `[1, 3]`. -/
theorem c8_normalise_weights_witness :
    normalise_weights [1, 2] [1, 3] = .ok ([1, 2], renormalised [1, 3]) ∧
    (renormalised [(1 : Rat), 3]).sum = 1 :=
  (c8_normalise_weights [1, 2] [1, 3]).1 (by norm_num) (by norm_num) (by norm_num)

/-- Round-half-to-even is monotone. -/
lemma roundHalfEven_mono {a b : Rat} (h : a ≤ b) :
    roundHalfEven a ≤ roundHalfEven b := by
  have hf : ⌊a⌋ ≤ ⌊b⌋ := Int.floor_le_floor h
  simp only [roundHalfEven]
  rcases eq_or_lt_of_le hf with heq | hlt
  · have hr : a - (⌊a⌋ : Rat) ≤ b - (⌊b⌋ : Rat) := by
      rw [heq]
      linarith
    rw [heq]
    split_ifs <;> first | omega | (exfalso; linarith)
  · split_ifs <;> omega

/-- Rounding to 10 decimal places is monotone. -/
lemma round10_mono {a b : Rat} (h : a ≤ b) : round10 a ≤ round10 b := by
  unfold round10
  have h1 : a * 10000000000 ≤ b * 10000000000 := by linarith
  have h2 := roundHalfEven_mono h1
  have h3 : ((roundHalfEven (a * 10000000000) : Int) : Rat) ≤
      ((roundHalfEven (b * 10000000000) : Int) : Rat) := by exact_mod_cast h2
  exact (div_le_div_iff_of_pos_right (by norm_num)).mpr h3

/-- Counterexample to C5 as stated: at `(start, stop, step) = (10, 0, 1)`
the tolerant point count `floor((stop-start)/step + 1e-12) + 1` is `-9`, but
the code returns the empty grid — a list cannot have `-9` elements; and at
`(0, 1e-11, 1e-11)` the grid is `[0, 0]`, which is not strictly ascending. -/
theorem c5_counterexample :
    (0 : Rat) < 1 ∧
    (⌊(((0 : Rat)) - 10) / 1 + 1/1000000000000⌋ + 1 : Int) = -9 ∧
    ltv_grid 10 0 1 = .ok [] ∧
    ((([] : List Rat).length : Int) ≠ -9) ∧
    ltv_grid 0 (1/100000000000) (1/100000000000) = .ok [0, 0] ∧
    ¬ ((0 : Rat) < 0) := by
  refine ⟨by norm_num, by norm_num, ?_, by norm_num, ?_, by norm_num⟩
  · simp only [ltv_grid]
    rw [if_neg (by norm_num)]
    have hn : (⌊(((0 : Rat)) - 10) / 1 + 1/1000000000000⌋ + 1 : Int) = -9 := by
      norm_num
    rw [hn]
    rfl
  · have hn : (⌊(((1 : Rat)/100000000000) - 0) / (1/100000000000) +
        1/1000000000000⌋ + 1 : Int) = 2 := by norm_num
    have hr : List.range ((2 : Int).toNat) = [0, 1] := by rfl
    simp only [ltv_grid, hn, hr, List.map_cons, List.map_nil]
    norm_num [round10, roundHalfEven]

/-- C5 amended: with `step > 0`, `ltv_grid` returns the nondecreasing
sequence whose length is `max 0 (floor((stop-start)/step + 1e-12) + 1)` and
whose `k`-th entry is `start + k*step` rounded (half-to-even) to 10 decimal
places; with `step ≤ 0` it raises `InvalidRangeError`; on
`(0.5, 0.8, 0.05)` it returns exactly the 7 points `0.50 .. 0.80`. -/
theorem c5_ltv_grid :
    (∀ start stop step : Rat, 0 < step →
      ltv_grid start stop step =
        .ok ((List.range
            (⌊(stop - start) / step + 1/1000000000000⌋ + 1).toNat).map
          (fun k : Nat => round10 (start + step * (k : Rat)))) ∧
      ((List.range
            (⌊(stop - start) / step + 1/1000000000000⌋ + 1).toNat).map
          (fun k : Nat => round10 (start + step * (k : Rat)))).Sorted (· ≤ ·)) ∧
    (∀ start stop step : Rat, step ≤ 0 →
      ltv_grid start stop step = .error .invalidRangeError) ∧
    ltv_grid (1/2) (4/5) (1/20) =
      .ok [1/2, 11/20, 3/5, 13/20, 7/10, 3/4, 4/5] := by
  refine ⟨?_, ?_, ?_⟩
  · intro start stop step hstep
    constructor
    · simp only [ltv_grid]
      rw [if_neg (not_le.mpr hstep)]
    · rw [List.Sorted, List.pairwise_map]
      apply List.Pairwise.imp ?_ (List.pairwise_lt_range _)
      intro m n hmn
      apply round10_mono
      have : (m : Rat) ≤ (n : Rat) := by exact_mod_cast le_of_lt hmn
      nlinarith
  · intro start stop step hstep
    simp only [ltv_grid]
    rw [if_pos hstep]
  · have hn : (⌊(((4 : Rat)/5) - 1/2) / (1/20) + 1/1000000000000⌋ + 1 : Int) = 7 := by
      norm_num
    have hr : List.range ((7 : Int).toNat) = [0, 1, 2, 3, 4, 5, 6] := by rfl
    simp only [ltv_grid, hn, hr, List.map_cons, List.map_nil]
    norm_num [round10, roundHalfEven]

/-- Witness for C5 on `(start, stop, step) = (0, 2, 1)` for the success and
sortedness branch, and `(1, 2, 0)` for the error branch. -/
theorem c5_ltv_grid_witness :
    (ltv_grid 0 2 1 =
      .ok ((List.range
          (⌊((2 : Rat) - 0) / 1 + 1/1000000000000⌋ + 1).toNat).map
        (fun k : Nat => round10 (0 + 1 * (k : Rat)))) ∧
      ((List.range
          (⌊((2 : Rat) - 0) / 1 + 1/1000000000000⌋ + 1).toNat).map
        (fun k : Nat => round10 (0 + 1 * (k : Rat)))).Sorted (· ≤ ·)) ∧
    ltv_grid 1 2 0 = .error .invalidRangeError :=
  ⟨c5_ltv_grid.1 0 2 1 (by norm_num), c5_ltv_grid.2.1 1 2 0 (by norm_num)⟩

/-- Counterexample to C7 as stated: with cost ratio `0`, gross yield `1`
(positive), occupancy `0`, rate `1/10`, `min_dscr = 1`, base rate `0` and
LTVs `1/4 < 1/2` in `(0,1)`, the DSCR is `0` at both LTVs (the zero floor),
so it does not strictly decrease, and the max tolerable shock is `0` at both
LTVs, so it does not decrease either. -/
theorem c7_counterexample :
    (0 : Rat) < 1 ∧ (0 : Rat) < 1 ∧ (0 : Rat) < 1/4 ∧ (1 : Rat)/4 < 1/2 ∧
    (1 : Rat)/2 < 1 ∧
    (CashflowModel.mk 0 true).dscr 1 0 (1/10) (1/4) = .ok 0 ∧
    (CashflowModel.mk 0 true).dscr 1 0 (1/10) (1/2) = .ok 0 ∧
    ¬ ((0 : Rat) < 0) ∧
    analytical_max_rate_for_dscr 0 1 (1/4) 0 1 = .ok 0 ∧
    analytical_max_rate_for_dscr 0 1 (1/2) 0 1 = .ok 0 ∧
    ¬ (analytical_break_even_shock_bp 0 0 < analytical_break_even_shock_bp 0 0) := by
  refine ⟨by norm_num, by norm_num, by norm_num, by norm_num, by norm_num,
    ?_, ?_, by norm_num, ?_, ?_, by norm_num⟩ <;>
    norm_num [CashflowModel.dscr, CashflowModel.noi, CashflowModel.interest,
      analytical_max_rate_for_dscr]

/-- C7 amended: with cost ratio `< 1`, positive gross yield, positive
occupancy, positive rate and positive `min_dscr` all held fixed, for LTVs
`0 < ltv1 < ltv2 < 1` the DSCR strictly decreases and the analytic maximum
tolerable shock strictly decreases as LTV increases. -/
theorem c7_monotone_in_ltv (c R occ rate m base ltv1 ltv2 : Rat)
    (hc : c < 1) (hR : 0 < R) (hocc : 0 < occ) (hrate : 0 < rate)
    (hm : 0 < m) (h1 : 0 < ltv1) (h12 : ltv1 < ltv2) (h2 : ltv2 < 1) :
    (CashflowModel.mk c true).dscr R occ rate ltv1 =
      .ok ((1 - c) * R * occ / (rate * ltv1)) ∧
    (CashflowModel.mk c true).dscr R occ rate ltv2 =
      .ok ((1 - c) * R * occ / (rate * ltv2)) ∧
    (1 - c) * R * occ / (rate * ltv2) < (1 - c) * R * occ / (rate * ltv1) ∧
    analytical_max_rate_for_dscr c R ltv1 occ m =
      .ok ((1 - c) * R * occ / (m * ltv1)) ∧
    analytical_max_rate_for_dscr c R ltv2 occ m =
      .ok ((1 - c) * R * occ / (m * ltv2)) ∧
    analytical_break_even_shock_bp base ((1 - c) * R * occ / (m * ltv2)) <
      analytical_break_even_shock_bp base ((1 - c) * R * occ / (m * ltv1)) := by
  have h1c : 0 < 1 - c := by linarith
  have hnoi : 0 < (1 - c) * R * occ := by positivity
  have hlt2 : 0 < ltv2 := lt_trans h1 h12
  have hdiv : ∀ d1 d2 : Rat, 0 < d1 → d1 < d2 → 0 < d2 →
      (1 - c) * R * occ / d2 < (1 - c) * R * occ / d1 := by
    intro d1 d2 hd1 hdd hd2
    exact div_lt_div_of_pos_left hnoi hd1 hdd
  refine ⟨?_, ?_, ?_, ?_, ?_, ?_⟩
  · unfold CashflowModel.dscr CashflowModel.noi CashflowModel.interest
    rw [if_neg (by simpa using not_le.mpr (by positivity : (0:Rat) < rate * ltv1)),
      if_neg (by simpa using not_le.mpr hnoi)]
  · unfold CashflowModel.dscr CashflowModel.noi CashflowModel.interest
    rw [if_neg (by simpa using not_le.mpr (by positivity : (0:Rat) < rate * ltv2)),
      if_neg (by simpa using not_le.mpr hnoi)]
  · exact hdiv (rate * ltv1) (rate * ltv2) (by positivity)
      ((mul_lt_mul_left hrate).mpr h12) (by positivity)
  · unfold analytical_max_rate_for_dscr
    rw [if_neg (not_le.mpr h1), if_neg (not_le.mpr hm)]
  · unfold analytical_max_rate_for_dscr
    rw [if_neg (not_le.mpr hlt2), if_neg (not_le.mpr hm)]
  · unfold analytical_break_even_shock_bp
    have := hdiv (m * ltv1) (m * ltv2) (by positivity)
      ((mul_lt_mul_left hm).mpr h12) (by positivity)
    linarith

/-- Witness for C7 at `c = 1/2`, `R = 1/10`, `occ = 9/10`, `rate = 1/20`,
`m = 1`, `base = 1/20`, `ltv1 = 1/2`, `ltv2 = 3/4`. -/
theorem c7_monotone_in_ltv_witness :
    (CashflowModel.mk (1/2) true).dscr (1/10) (9/10) (1/20) (1/2) =
      .ok ((1 - 1/2) * (1/10) * (9/10) / (1/20 * (1/2))) ∧
    (CashflowModel.mk (1/2) true).dscr (1/10) (9/10) (1/20) (3/4) =
      .ok ((1 - 1/2) * (1/10) * (9/10) / (1/20 * (3/4))) ∧
    (1 - 1/2) * (1/10) * (9/10) / ((1:Rat)/20 * (3/4)) <
      (1 - 1/2) * (1/10) * (9/10) / (1/20 * (1/2)) ∧
    analytical_max_rate_for_dscr (1/2) (1/10) (1/2) (9/10) 1 =
      .ok ((1 - 1/2) * (1/10) * (9/10) / (1 * (1/2))) ∧
    analytical_max_rate_for_dscr (1/2) (1/10) (3/4) (9/10) 1 =
      .ok ((1 - 1/2) * (1/10) * (9/10) / (1 * (3/4))) ∧
    analytical_break_even_shock_bp (1/20) ((1 - 1/2) * (1/10) * (9/10) / (1 * (3/4))) <
      analytical_break_even_shock_bp (1/20) ((1 - 1/2) * (1/10) * (9/10) / (1 * (1/2))) :=
  c7_monotone_in_ltv (1/2) (1/10) (9/10) (1/20) 1 (1/20) (1/2) (3/4)
    (by norm_num) (by norm_num) (by norm_num) (by norm_num) (by norm_num)
    (by norm_num) (by norm_num) (by norm_num)

/-- C3: on valid marginal distributions, and with every scenario rate giving
positive interest (so DSCR is defined at every pair),
`failure_probability_over_distribution` returns exactly the sum over the
full Cartesian product of both supports of the products of renormalised
marginal weights of the failed pairs — no pair skipped, no sampling. -/
theorem c3_failure_probability_exact (model : CashflowModel)
    (gross_rent debt base_rate : Rat)
    (shock_bp_values shock_bp_weights occ_values occ_weights : List Rat)
    (min_dscr min_cashflow : Rat)
    (hs_len : shock_bp_values.length = shock_bp_weights.length)
    (hs_nn : ∀ w ∈ shock_bp_weights, 0 ≤ w)
    (hs_sum : shock_bp_weights.sum ≠ 0)
    (ho_len : occ_values.length = occ_weights.length)
    (ho_nn : ∀ w ∈ occ_weights, 0 ≤ w)
    (ho_sum : occ_weights.sum ≠ 0)
    (hpos : ∀ s ∈ shock_bp_values, 0 < scenario_rate base_rate s * debt) :
    failure_probability_over_distribution model gross_rent debt base_rate
        shock_bp_values shock_bp_weights occ_values occ_weights
        min_dscr min_cashflow =
      .ok (spec_failure_mass model gross_rent debt base_rate min_dscr
        min_cashflow
        (occ_values.zip (renormalised occ_weights))
        (shock_bp_values.zip (renormalised shock_bp_weights))) := by
  unfold failure_probability_over_distribution
  rw [normalise_weights_eq shock_bp_values shock_bp_weights hs_len hs_nn hs_sum,
    normalise_weights_eq occ_values occ_weights ho_len ho_nn ho_sum]
  simp only [bind, Except.bind]
  rw [accumulate_occs_eq]
  · rw [zero_add]
  · intro p hp
    exact hpos p.1 (List.of_mem_zip ((Prod.mk.eta (p := p)) ▸ hp)).1

/-- Witness for C3 on a 2×2 synthetic distribution: cost ratio `0`, rent `1`,
debt `1/2`, base rate `1/20`, shocks `[0, 200]` with weights `[3, 1]`,
occupancy `[1, 1/2]` with weights `[1, 1]`, `min_dscr = 1`,
`min_cashflow = 0`. -/
theorem c3_failure_probability_exact_witness :
    failure_probability_over_distribution (CashflowModel.mk 0 true) 1 (1/2)
        (1/20) [0, 200] [3, 1] [1, 1/2] [1, 1] 1 0 =
      .ok (spec_failure_mass (CashflowModel.mk 0 true) 1 (1/2) (1/20) 1 0
        ([1, 1/2].zip (renormalised [1, 1]))
        ([0, 200].zip (renormalised [3, 1]))) :=
  c3_failure_probability_exact (CashflowModel.mk 0 true) 1 (1/2) (1/20)
    [0, 200] [3, 1] [1, 1/2] [1, 1] 1 0
    (by norm_num) (by intro w hw; simp only [List.mem_cons, List.not_mem_nil,
      or_false] at hw; rcases hw with rfl | rfl <;> norm_num)
    (by norm_num)
    (by norm_num) (by intro w hw; simp only [List.mem_cons, List.not_mem_nil,
      or_false] at hw; rcases hw with rfl | rfl <;> norm_num)
    (by norm_num)
    (by intro s hs; simp only [List.mem_cons, List.not_mem_nil,
      or_false] at hs; rcases hs with rfl | rfl <;> norm_num [scenario_rate])

/-- Every successfully built row records its pass flags as the stress-check
conjunction, the probability comparison, and their conjunction. -/
lemma build_row_flags (cfg : SweepConfig) (ltv : Rat) (row : ResultRow)
    (h : build_row cfg ltv = .ok row) :
    row.passes_stress = (decide (cfg.min_cashflow ≤ row.stress_cashflow) &&
      decide (cfg.min_dscr ≤ row.stress_dscr)) ∧
    row.passes_probability =
      decide (row.failure_probability ≤ cfg.max_failure_probability) ∧
    row.admissible = (row.passes_stress && row.passes_probability) := by
  unfold build_row at h
  simp only [bind, Except.bind, pure, Except.pure] at h
  repeat' split at h
  any_goals exact Except.noConfusion h
  rw [Except.ok.injEq] at h
  subst h
  exact ⟨rfl, rfl, rfl⟩

/-- Every row of a successful `build_rows` comes from a successful
`build_row`. -/
lemma build_rows_mem (cfg : SweepConfig) (ltvs : List Rat)
    (rows : List ResultRow) (h : build_rows cfg ltvs = .ok rows) :
    ∀ row ∈ rows, ∃ l, build_row cfg l = .ok row := by
  induction ltvs generalizing rows with
  | nil =>
      unfold build_rows at h
      rw [Except.ok.injEq] at h
      subst h
      intro row hrow
      exact absurd hrow (List.not_mem_nil row)
  | cons hd tl ih =>
      unfold build_rows at h
      simp only [bind, Except.bind] at h
      split at h
      · exact Except.noConfusion h
      · rename_i r hr
        split at h
        · exact Except.noConfusion h
        · rename_i rs hrs
          simp only [pure, Except.pure, Except.ok.injEq] at h
          subst h
          intro row hrow
          rcases List.mem_cons.mp hrow with rfl | hmem
          · exact ⟨hd, hr⟩
          · exact ih rs hrs row hmem

/-- C4: in every row produced by the sweep orchestrator, `passes_stress`
holds iff the stress cashflow and stress DSCR meet their thresholds,
`passes_probability` holds iff the failure probability is within the allowed
maximum, and `admissible` holds iff both pass flags hold. -/
theorem c4_sweep_flags (cfg : SweepConfig) (start stop step : Rat)
    (rows : List ResultRow) (h : run_sweep cfg start stop step = .ok rows) :
    ∀ row ∈ rows,
      (row.passes_stress = true ↔
        (cfg.min_cashflow ≤ row.stress_cashflow ∧
         cfg.min_dscr ≤ row.stress_dscr)) ∧
      (row.passes_probability = true ↔
        row.failure_probability ≤ cfg.max_failure_probability) ∧
      (row.admissible = true ↔
        (row.passes_stress = true ∧ row.passes_probability = true)) := by
  unfold run_sweep at h
  simp only [bind, Except.bind] at h
  split at h
  · exact Except.noConfusion h
  · rename_i ltvs hltvs
    intro row hrow
    obtain ⟨l, hl⟩ := build_rows_mem cfg ltvs rows h row hrow
    obtain ⟨hps, hpp, hadm⟩ := build_row_flags cfg l row hl
    refine ⟨?_, ?_, ?_⟩
    · rw [hps]
      simp [Bool.and_eq_true, decide_eq_true_eq]
    · rw [hpp]
      simp [decide_eq_true_eq]
    · rw [hadm]
      simp [Bool.and_eq_true]

/-- Concrete example configuration for exercising the sweep end to end. -/
def c4_example_cfg : SweepConfig :=
  { operating_cost_ratio := 1/2, base_rate := 1/20, min_dscr := 1,
    min_cashflow := 0, max_failure_probability := 1/10, stress_occ := 1,
    stress_shock_bp := 100, gross_yield := 1/10,
    shock_bp_values := [0], shock_bp_weights := [1],
    occ_values := [1], occ_weights := [1] }

/-- The row the sweep produces from `c4_example_cfg` on the grid `[1/2]`. -/
def c4_example_row : ResultRow :=
  { gross_yield := 1/10, base_rate := 1/20, ltv := 1/2,
    theta_rent_to_debt := 1/5, stress_occ := 1, stress_shock_bp := 100,
    stress_rate := 3/50, stress_cashflow := 1/50, stress_dscr := 5/3,
    worst_on_support := some (1/40, 2), failure_probability := 0,
    max_failure_probability := 1/10, max_shock_bp := 500,
    passes_stress := true, passes_probability := true, admissible := true }

/-- Witness for C4 on the concrete one-point sweep of `c4_example_cfg`. -/
theorem c4_sweep_flags_witness :
    (c4_example_row.passes_stress = true ↔
      (c4_example_cfg.min_cashflow ≤ c4_example_row.stress_cashflow ∧
       c4_example_cfg.min_dscr ≤ c4_example_row.stress_dscr)) ∧
    (c4_example_row.passes_probability = true ↔
      c4_example_row.failure_probability ≤
        c4_example_cfg.max_failure_probability) ∧
    (c4_example_row.admissible = true ↔
      (c4_example_row.passes_stress = true ∧
       c4_example_row.passes_probability = true)) := by
  have hrun : run_sweep c4_example_cfg (1/2) (1/2) 1 = .ok [c4_example_row] := by
    have hn : (⌊(((1:Rat)/2) - 1/2) / 1 + 1/1000000000000⌋ + 1 : Int) = 1 := by
      norm_num
    norm_num [run_sweep, c4_example_cfg, c4_example_row, ltv_grid, hn, round10,
      roundHalfEven, build_rows, build_row, bind, Except.bind,
      normalised_rent_from_yield, normalised_debt_from_ltv, scenario_rate,
      CashflowModel.net_cashflow, CashflowModel.noi, CashflowModel.interest,
      CashflowModel.dscr, failure_probability_over_distribution,
      normalise_weights, accumulate_occs, accumulate_shocks, scenario_failed,
      worst_on_support, analytical_max_rate_for_dscr,
      analytical_break_even_shock_bp, pure, Except.pure, List.foldlM]
  exact c4_sweep_flags c4_example_cfg (1/2) (1/2) 1 [c4_example_row] hrun
    c4_example_row (List.mem_singleton.mpr rfl)

/-- Witness for C1 at the spec's worked example: cost ratio `0.3`, yield
`0.07`, LTV `0.7`, occupancy `0.9`, `min_dscr = 1`; the solver returns
`0.063` and the model's DSCR at that rate is exactly `1`. -/
theorem c1_analytical_inverse_witness :
    (CashflowModel.mk (3/10) true).dscr (7/100) (9/10) (63/1000) (7/10) =
      .ok 1 :=
  c1_analytical_inverse (3/10) (7/100) (7/10) (9/10) 1 (63/1000)
    (by norm_num) (by norm_num) (by norm_num) (by norm_num) (by norm_num)
    (by norm_num [analytical_max_rate_for_dscr])
